import Mathlib

/-!
Shallow embedding of `src/locust/skynet_search.py`.

The file defines one TaskSet subclass (`SkynetSearchTasks`) with lifecycle
hooks `on_start`/`login`/`on_stop`/`logout` (all empty stubs) and a single
weighted task `search` that POSTs a fixed payload to a fixed path, and one
HttpLocust subclass (`SkynetSearchUser`) holding the class-level
configuration (task_set, host, min_wait, max_wait).

Operations are embedded as explicit state-passing functions over the static
configuration record, returning the (unchanged) state together with the list
of HTTP calls the operation issues through the harness client.
-/

/-- A literal value appearing in a request payload: a Python string literal or
a numeric literal (the two float literals are embedded as exact rationals;
no arithmetic is ever performed on them in the source). -/
inductive PyValue where
  | str : String → PyValue
  | num : Rat → PyValue
deriving DecidableEq, Repr

/-- An outbound HTTP call issued through the harness client
(`self.client.post(path, payload)` in the source). -/
structure HttpCall where
  method : String
  path : String
  payload : List (String × PyValue)
deriving DecidableEq, Repr

/-- The static configuration record (the spec's `SearchRequestSpec` entity):
the per-repository constants read by the harness.  The task operations are
embedded as functions over this record so that (non-)mutation of every field
is expressible. -/
structure SearchRequestSpec where
  method : String
  path : String
  payload : List (String × PyValue)
  host : String
  min_wait : Nat
  max_wait : Nat
deriving DecidableEq, Repr

/-- `SkynetSearchTasks.login`: body is `pass` — no state change, no HTTP call. -/
def login (s : SearchRequestSpec) : SearchRequestSpec × List HttpCall :=
  (s, [])

/-- `SkynetSearchTasks.logout`: body is `pass` — no state change, no HTTP call. -/
def logout (s : SearchRequestSpec) : SearchRequestSpec × List HttpCall :=
  (s, [])

/-- `SkynetSearchTasks.on_start`: calls `self.login()` and nothing else. -/
def on_start (s : SearchRequestSpec) : SearchRequestSpec × List HttpCall :=
  login s

/-- `SkynetSearchTasks.on_stop`: calls `self.logout()` and nothing else. -/
def on_stop (s : SearchRequestSpec) : SearchRequestSpec × List HttpCall :=
  logout s

/-- The dict literal passed to `self.client.post` in `SkynetSearchTasks.search`
(source lines 28–34), in source order. -/
def searchPayload : List (String × PyValue) :=
  [("province", PyValue.str "河北省"),
   ("city", PyValue.str "石家庄市"),
   ("district", PyValue.str "桥西区"),
   ("latitude", PyValue.num 38.021019),
   ("longitude", PyValue.num 114.435741)]

/-- `SkynetSearchTasks.search`: issues exactly one POST with the literal path
and the literal payload dict; reads and writes no attribute of the task. -/
def search (s : SearchRequestSpec) : SearchRequestSpec × List HttpCall :=
  (s, [⟨"POST", "/skynet/api/domain/search", searchPayload⟩])

/-- The class-level shape of a TaskSet subclass as the harness sees it:
its weighted task collection (action name, weight) and whether it defines
start/stop hooks. -/
structure TaskSetClass where
  tasks : List (String × Nat)
  has_on_start : Bool
  has_on_stop : Bool
deriving DecidableEq, Repr

/-- The class `SkynetSearchTasks`: one task `search` decorated `@task(10)`,
plus `on_start` and `on_stop` hooks. -/
def SkynetSearchTasks : TaskSetClass :=
  ⟨[("search", 10)], true, true⟩

/-- The class-level shape of an HttpLocust subclass as the harness sees it:
its task_set, host, and the two wait bounds in milliseconds. -/
structure HttpLocustClass where
  task_set : TaskSetClass
  host : String
  min_wait : Nat
  max_wait : Nat
deriving DecidableEq, Repr

/-- The class `SkynetSearchUser` (source lines 36–45). -/
def SkynetSearchUser : HttpLocustClass :=
  ⟨SkynetSearchTasks, "https://www.video110.cn:8030", 1000, 10000⟩

/-- Modelled from the spec: the repository's duplicated near-identical variant
files are not under src/; per the spec they configure the wait bounds as
5000 and 15000 and are otherwise identical to `SkynetSearchUser`. -/
def specVariantUser : HttpLocustClass :=
  ⟨SkynetSearchTasks, "https://www.video110.cn:8030", 5000, 15000⟩

/-- All user-class variants of the repository: the one under src/ plus the
spec-modelled duplicated variant. -/
def allVariantUserClasses : List HttpLocustClass :=
  [SkynetSearchUser, specVariantUser]

/-- C1: on every invocation of `search`, the payload of the (single) call it
issues has exactly the five keys province, city, district, latitude,
longitude, in that order and no others, each bound to a literal value. -/
theorem C1_payload_exactly_five_keys (s : SearchRequestSpec) :
    (search s).2.map (fun c => c.payload.map Prod.fst) =
      [["province", "city", "district", "latitude", "longitude"]] :=
  rfl

/-- C2: one invocation of `search` produces exactly one HTTP call, a POST to
the fixed path `/skynet/api/domain/search` with the fixed payload, and no
other network call. -/
theorem C2_single_post_no_other_calls (s : SearchRequestSpec) :
    (search s).2 = [⟨"POST", "/skynet/api/domain/search", searchPayload⟩] :=
  rfl

/-- C3: for every user-class variant of the repository, the configured
minimum wait bound is at most the configured maximum wait bound. -/
theorem C3_min_wait_le_max_wait :
    ∀ u ∈ allVariantUserClasses, u.min_wait ≤ u.max_wait := by
  intro u hu
  fin_cases hu <;> decide

/-- Witness for C3 at the concrete user class from src/. -/
theorem C3_min_wait_le_max_wait_witness :
    SkynetSearchUser ∈ allVariantUserClasses ∧
      SkynetSearchUser.min_wait ≤ SkynetSearchUser.max_wait :=
  ⟨by decide, C3_min_wait_le_max_wait SkynetSearchUser (by decide)⟩

/-- C4: the request constants match the spec — the method of the issued call
is POST, the path is exactly the non-empty string
`/skynet/api/domain/search`, and the configured host is exactly the
non-empty string `https://www.video110.cn:8030`. -/
theorem C4_request_constants (s : SearchRequestSpec) :
    (search s).2.map HttpCall.method = ["POST"] ∧
    (search s).2.map HttpCall.path = ["/skynet/api/domain/search"] ∧
    "/skynet/api/domain/search" ≠ "" ∧
    SkynetSearchUser.host = "https://www.video110.cn:8030" ∧
    SkynetSearchUser.host ≠ "" := by
  refine ⟨rfl, rfl, ?_, rfl, ?_⟩ <;> decide

/-- C5: the login/logout hooks, invoked via on_start/on_stop, are empty
stubs: each returns the state unchanged and issues no HTTP call; being total
functions into a plain pair (no `Option`/`Except`), they have no error
path. -/
theorem C5_hooks_are_empty_stubs (s : SearchRequestSpec) :
    on_start s = (s, []) ∧ login s = (s, []) ∧
    on_stop s = (s, []) ∧ logout s = (s, []) :=
  ⟨rfl, rfl, rfl, rfl⟩

/-- C6: no operation of the code mutates the configuration record: each of
on_start, login, on_stop, logout and search returns every field of the
descriptor unchanged. -/
theorem C6_no_operation_mutates_spec (s : SearchRequestSpec) :
    (on_start s).1 = s ∧ (login s).1 = s ∧ (on_stop s).1 = s ∧
    (logout s).1 = s ∧ (search s).1 = s :=
  ⟨rfl, rfl, rfl, rfl, rfl⟩

/-- C7: the wait bounds vary across the duplicated variant files — some
variant configures min_wait = 1000 and max_wait = 10000, and some other
variant configures min_wait = 5000 and max_wait = 15000. -/
theorem C7_wait_bounds_vary_across_variants :
    (∃ u ∈ allVariantUserClasses, u.min_wait = 1000 ∧ u.max_wait = 10000) ∧
    (∃ u ∈ allVariantUserClasses, u.min_wait = 5000 ∧ u.max_wait = 15000) :=
  ⟨⟨SkynetSearchUser, by decide, rfl, rfl⟩,
   ⟨specVariantUser, by decide, rfl, rfl⟩⟩

/-- C8: the user class exposes the harness's expected shape — its task_set is
the SkynetSearchTasks class, whose weighted task collection is exactly the
single task `search` with weight 10, together with start/stop hooks, the
target host string, and the integer wait bounds in milliseconds. -/
theorem C8_harness_shape :
    SkynetSearchUser.task_set = SkynetSearchTasks ∧
    SkynetSearchTasks.tasks = [("search", 10)] ∧
    SkynetSearchTasks.has_on_start = true ∧
    SkynetSearchTasks.has_on_stop = true ∧
    SkynetSearchUser.host = "https://www.video110.cn:8030" ∧
    SkynetSearchUser.min_wait = 1000 ∧
    SkynetSearchUser.max_wait = 10000 :=
  ⟨rfl, rfl, rfl, rfl, rfl, rfl, rfl⟩

/-- C9: the concrete payload literals sent on every invocation of `search`
are province = 河北省, city = 石家庄市, district = 桥西区,
latitude = 38.021019 (= 38021019/1000000) and
longitude = 114.435741 (= 114435741/1000000). -/
theorem C9_exact_payload_literals (s : SearchRequestSpec) :
    (search s).2.map HttpCall.payload =
      [[("province", PyValue.str "河北省"),
        ("city", PyValue.str "石家庄市"),
        ("district", PyValue.str "桥西区"),
        ("latitude", PyValue.num (38021019 / 1000000)),
        ("longitude", PyValue.num (114435741 / 1000000))]] := by
  simp only [search, searchPayload, List.map]
  norm_num

/-- C10: `search` is deterministic — any two invocations, from any two
states, issue the identical request list (same method, path and payload),
since the request depends on no input, state or randomness. -/
theorem C10_search_deterministic (s₁ s₂ : SearchRequestSpec) :
    (search s₁).2 = (search s₂).2 :=
  rfl
